import Mathlib

/-!
Shallow embedding of the typical-days MILP clustering repository.

The repository builds two Pyomo MILP models:
  * `k_medoids_milp.create_model` — the plain k-medoids assignment MILP;
  * `k_medoids_constrained.create_model` — the same base model extended with
    total-value and peak-value preservation constraints, plus a build action
    `_apply_options` that (de)activates constraints and fixes variables
    according to the two configuration flags.

Days are modelled as the integer range `1..n_days` (Pyomo `RangeSet(n_days)`),
decision variables as rational-valued functions with an explicit `Binary`
domain predicate, parameters as fields of a data structure, and the Pyomo
constraint/variable activation state as an explicit record of flags.
-/

namespace TypicalDays

/-- Pyomo `within = pe.Binary` domain of a decision variable. -/
abbrev Binary (q : ℚ) : Prop := q = 0 ∨ q = 1

/-- Pyomo set `m.Days = pe.RangeSet(m.n_days)`: the integers `1..n_days`. -/
def Days (n : ℕ) : Finset ℕ := Finset.Icc 1 n

/-- Pyomo set `m.Days_cross = m.Days * m.Days`. -/
def Days_cross (n : ℕ) : Finset (ℕ × ℕ) := Days n ×ˢ Days n

namespace Milp

/-- Parameters of `k_medoids_milp.create_model`: `n_days` and `n_clusters`
are declared `within=pe.PositiveIntegers`, `n_extreme_days` is a
non-negative integer defaulting to 0, and `distance` is indexed by
`Days_cross`.  (The model also declares a set `Clusters = RangeSet(n_clusters)`
which no constraint or objective uses; it is omitted.) -/
structure Data where
  n_days : ℕ
  n_clusters : ℕ
  n_extreme_days : ℕ
  distance : ℕ → ℕ → ℚ

/-- The decision variables of the plain model: `y` over `Days` and `z` over
`Days_cross`, both with Binary domain. -/
structure Sol where
  y : ℕ → ℚ
  z : ℕ → ℕ → ℚ

/-- Variable domains: `y` and `z` are `within = pe.Binary`. -/
abbrev BinarySol (d : Data) (s : Sol) : Prop :=
  (∀ i ∈ Days d.n_days, Binary (s.y i)) ∧
  (∀ ij ∈ Days_cross d.n_days, Binary (s.z ij.1 ij.2))

/-- Constraint `_total_representative_days`:
`sum(m.y[i] for i in m.Days) == m.n_clusters`. -/
abbrev total_representative_days (d : Data) (s : Sol) : Prop :=
  (∑ i ∈ Days d.n_days, s.y i) = (d.n_clusters : ℚ)

/-- Constraint `_each_non_extreme_day_is_represented` (for day `j`):
`sum(m.z[i,j] for i in m.Days) <= 1`. -/
abbrev each_non_extreme_day_is_represented (d : Data) (s : Sol) (j : ℕ) : Prop :=
  (∑ i ∈ Days d.n_days, s.z i j) ≤ 1

/-- Constraint `_total_represented_days`:
`sum(m.z[ij] for ij in m.Days_cross) == m.n_days - m.n_extreme_days`. -/
abbrev total_represented_days (d : Data) (s : Sol) : Prop :=
  (∑ ij ∈ Days_cross d.n_days, s.z ij.1 ij.2) =
    (d.n_days : ℚ) - (d.n_extreme_days : ℚ)

/-- Constraint `_represented_by_representative` (for pair `(i,j)`):
`m.z[i,j] <= m.y[i]`. -/
abbrev represented_by_representative (s : Sol) (i j : ℕ) : Prop :=
  s.z i j ≤ s.y i

/-- A solution satisfies all four constraint families of the plain model. -/
abbrev feasible (d : Data) (s : Sol) : Prop :=
  total_representative_days d s ∧
  (∀ j ∈ Days d.n_days, each_non_extreme_day_is_represented d s j) ∧
  total_represented_days d s ∧
  (∀ i ∈ Days d.n_days, ∀ j ∈ Days d.n_days, represented_by_representative s i j)

/-- Objective `_total_distance`:
`sum(m.distance[ij]*m.z[ij] for ij in m.Days_cross)`, minimized. -/
def minimize_total_distance (d : Data) (s : Sol) : ℚ :=
  ∑ ij ∈ Days_cross d.n_days, d.distance ij.1 ij.2 * s.z ij.1 ij.2

/-- Construction-time validation of the plain model's scalar parameters, as
declared by their Pyomo domains: `n_days` and `n_clusters` are
`within=pe.PositiveIntegers` (`n_extreme_days`, a natural number here, is
automatically within `pe.NonNegativeIntegers`).  No other validation of the
counts exists in the source. -/
abbrev paramDomainsOk (d : Data) : Prop :=
  1 ≤ d.n_days ∧ 1 ≤ d.n_clusters

end Milp

namespace Constrained

/-- Parameters of `k_medoids_constrained.create_model`: the plain-model
parameters plus the property-indexed data.  `x_total` is not stored: the
source initializes it from `x_daily_tot` (see `x_total` below). -/
structure Data where
  n_days : ℕ
  n_clusters : ℕ
  n_extreme_days : ℕ
  distance : ℕ → ℕ → ℚ
  Properties : Finset ℕ
  x_daily_tot : ℕ → ℕ → ℚ
  x_daily_max : ℕ → ℕ → ℚ
  x_max : ℕ → ℚ
  rel_tol : ℕ → ℚ
  min_peak_share : ℕ → ℚ

/-- The decision variables of the constrained model: `y`, `z` as in the plain
model, plus the peak-preservation witness variables `w` over
`Properties × Days`, all with Binary domain. -/
structure Sol where
  y : ℕ → ℚ
  z : ℕ → ℕ → ℚ
  w : ℕ → ℕ → ℚ

/-- Variable domains: `y`, `z` and `w` are `within = pe.Binary`. -/
abbrev BinarySol (d : Data) (s : Sol) : Prop :=
  (∀ i ∈ Days d.n_days, Binary (s.y i)) ∧
  (∀ ij ∈ Days_cross d.n_days, Binary (s.z ij.1 ij.2)) ∧
  (∀ p ∈ d.Properties, ∀ i ∈ Days d.n_days, Binary (s.w p i))

/-- Parameter rule `_x_total`: `sum(m.x_daily_tot[p,i] for i in m.Days)`.
It is a `pe.Param` initialized once from the input data; it takes no
solution argument, so it is not a decision quantity. -/
def x_total (d : Data) (p : ℕ) : ℚ :=
  ∑ i ∈ Days d.n_days, d.x_daily_tot p i

/-- Expression rule `_x_weight`: the weight assigned to day `i`,
`sum(m.z[i,j] for j in m.Days) + (1 - sum(m.z[k,i] for k in m.Days))`. -/
def x_weight (d : Data) (s : Sol) (i : ℕ) : ℚ :=
  (∑ j ∈ Days d.n_days, s.z i j) + (1 - ∑ k ∈ Days d.n_days, s.z k i)

/-- Expression rule `_x_total_estimated`:
`sum(m.x_weight[i] * m.x_daily_tot[p,i] for i in m.Days)`. -/
def x_total_estimated (d : Data) (s : Sol) (p : ℕ) : ℚ :=
  ∑ i ∈ Days d.n_days, x_weight d s i * d.x_daily_tot p i

/-- Expression rule `_chosen`, transcribed exactly from the source:
`m.y[i] + (1 - sum(m.z[i,j] for j in m.Days))`.  Note the sum ranges over the
second index of `z` (the days that `i` represents), not over the first
(the representatives of `i`). -/
def chosen (d : Data) (s : Sol) (i : ℕ) : ℚ :=
  s.y i + (1 - ∑ j ∈ Days d.n_days, s.z i j)

/-- Constraint `_total_representative_days` (identical to the plain model). -/
abbrev total_representative_days (d : Data) (s : Sol) : Prop :=
  (∑ i ∈ Days d.n_days, s.y i) = (d.n_clusters : ℚ)

/-- Constraint `_each_non_extreme_day_is_represented` (identical to the
plain model). -/
abbrev each_non_extreme_day_is_represented (d : Data) (s : Sol) (j : ℕ) : Prop :=
  (∑ i ∈ Days d.n_days, s.z i j) ≤ 1

/-- Constraint `_total_represented_days` (identical to the plain model). -/
abbrev total_represented_days (d : Data) (s : Sol) : Prop :=
  (∑ ij ∈ Days_cross d.n_days, s.z ij.1 ij.2) =
    (d.n_days : ℚ) - (d.n_extreme_days : ℚ)

/-- Constraint `_represented_by_representative` (identical to the plain
model). -/
abbrev represented_by_representative (s : Sol) (i j : ℕ) : Prop :=
  s.z i j ≤ s.y i

/-- Constraint `_relative_error_upper` (for property `p`):
`m.x_total_estimated[p] <= (1 + m.rel_tol[p]) * m.x_total[p]`. -/
abbrev relative_error_upper (d : Data) (s : Sol) (p : ℕ) : Prop :=
  x_total_estimated d s p ≤ (1 + d.rel_tol p) * x_total d p

/-- Constraint `_relative_error_lower` (for property `p`):
`m.x_total_estimated[p] >= (1 - m.rel_tol[p]) * m.x_total[p]`. -/
abbrev relative_error_lower (d : Data) (s : Sol) (p : ℕ) : Prop :=
  x_total_estimated d s p ≥ (1 - d.rel_tol p) * x_total d p

/-- Constraint `_preserve_peak` (for `(p, i)`):
`m.x_daily_max[p,i] * m.chosen[i] - m.w[p,i] * m.min_peak_share[p] * m.x_max[p] >= 0`. -/
abbrev preserve_peak (d : Data) (s : Sol) (p i : ℕ) : Prop :=
  d.x_daily_max p i * chosen d s i - s.w p i * d.min_peak_share p * d.x_max p ≥ 0

/-- Constraint `_at_least_one_preserved` (for property `p`):
`sum(m.w[p,i] for i in m.Days) >= 1`. -/
abbrev at_least_one_preserved (d : Data) (s : Sol) (p : ℕ) : Prop :=
  (∑ i ∈ Days d.n_days, s.w p i) ≥ 1

/-- Objective `_total_distance` (identical to the plain model). -/
def minimize_total_distance (d : Data) (s : Sol) : ℚ :=
  ∑ ij ∈ Days_cross d.n_days, d.distance ij.1 ij.2 * s.z ij.1 ij.2

/-- The two configuration flags, captured at `create_model` call time in
`m.options`. -/
structure Options where
  preserve_total_values : Bool
  preserve_peak_values : Bool
deriving DecidableEq

/-- Pyomo activation state of the constrained model: one `active` flag per
constraint / objective component, and for each variable family whether it is
fixed and to which value (`Var.fix(v)`). -/
structure State where
  total_representative_days_active : Bool
  each_non_extreme_day_is_represented_active : Bool
  total_represented_days_active : Bool
  represented_by_representative_active : Bool
  relative_error_upper_active : Bool
  relative_error_lower_active : Bool
  preserve_peak_active : Bool
  at_least_one_preserved_active : Bool
  minimize_total_distance_active : Bool
  y_is_fixed : Bool
  y_fix_value : ℚ
  z_is_fixed : Bool
  z_fix_value : ℚ
  w_is_fixed : Bool
  w_fix_value : ℚ
deriving DecidableEq

/-- The activation state of the model as constructed, before the
`BuildAction`: every Pyomo component is active and no variable is fixed. -/
def built : State :=
  { total_representative_days_active := true
    each_non_extreme_day_is_represented_active := true
    total_represented_days_active := true
    represented_by_representative_active := true
    relative_error_upper_active := true
    relative_error_lower_active := true
    preserve_peak_active := true
    at_least_one_preserved_active := true
    minimize_total_distance_active := true
    y_is_fixed := false
    y_fix_value := 0
    z_is_fixed := false
    z_fix_value := 0
    w_is_fixed := false
    w_fix_value := 0 }

/-- BuildAction rule `_apply_options`: if `preserve_total_values` is false,
deactivate `relative_error_upper` and `relative_error_lower`; if
`preserve_peak_values` is false, deactivate `preserve_peak` and
`at_least_one_preserved` and fix `w` to 0. -/
def apply_options (o : Options) (st : State) : State :=
  let st1 :=
    if o.preserve_total_values then st
    else { st with relative_error_upper_active := false
                   relative_error_lower_active := false }
  if o.preserve_peak_values then st1
  else { st1 with preserve_peak_active := false
                  at_least_one_preserved_active := false
                  w_is_fixed := true
                  w_fix_value := 0 }

/-- Feasibility of a solution for the constrained model under a given
activation state: every active constraint holds and every fixed variable
carries its fixed value (Pyomo semantics of `deactivate` and `fix`). -/
abbrev activeFeasible (d : Data) (st : State) (s : Sol) : Prop :=
  (st.total_representative_days_active = true → total_representative_days d s) ∧
  (st.each_non_extreme_day_is_represented_active = true →
    ∀ j ∈ Days d.n_days, each_non_extreme_day_is_represented d s j) ∧
  (st.total_represented_days_active = true → total_represented_days d s) ∧
  (st.represented_by_representative_active = true →
    ∀ i ∈ Days d.n_days, ∀ j ∈ Days d.n_days, represented_by_representative s i j) ∧
  (st.relative_error_upper_active = true →
    ∀ p ∈ d.Properties, relative_error_upper d s p) ∧
  (st.relative_error_lower_active = true →
    ∀ p ∈ d.Properties, relative_error_lower d s p) ∧
  (st.preserve_peak_active = true →
    ∀ p ∈ d.Properties, ∀ i ∈ Days d.n_days, preserve_peak d s p i) ∧
  (st.at_least_one_preserved_active = true →
    ∀ p ∈ d.Properties, at_least_one_preserved d s p) ∧
  (st.y_is_fixed = true → ∀ i ∈ Days d.n_days, s.y i = st.y_fix_value) ∧
  (st.z_is_fixed = true → ∀ ij ∈ Days_cross d.n_days, s.z ij.1 ij.2 = st.z_fix_value) ∧
  (st.w_is_fixed = true → ∀ p ∈ d.Properties, ∀ i ∈ Days d.n_days, s.w p i = st.w_fix_value)

/-- Construction-time validation of the constrained model's scalar
parameters, exactly as declared by their Pyomo domains: `n_days` and
`n_clusters` are `within=pe.PositiveIntegers` (`n_extreme_days`, a natural
number here, is automatically within `pe.NonNegativeIntegers`).  The source
performs no further validation of the counts at construction time. -/
abbrev paramDomainsOk (d : Data) : Prop :=
  1 ≤ d.n_days ∧ 1 ≤ d.n_clusters

/-- The plain-model parameters carried by a constrained-model parameter set. -/
def toMilp (d : Data) : Milp.Data :=
  { n_days := d.n_days
    n_clusters := d.n_clusters
    n_extreme_days := d.n_extreme_days
    distance := d.distance }

/-- The plain-model variables carried by a constrained-model solution. -/
def toMilpSol (s : Sol) : Milp.Sol :=
  { y := s.y, z := s.z }

end Constrained

/-!
Concrete parameter sets and solutions used to evaluate the model on
explicit inputs.
-/

/-- A two-day instance: `n_days = 2`, `n_clusters = 1`, `n_extreme_days = 0`,
one tracked property `1` with daily maxima 1, global maximum 1 and required
peak share 1. -/
def dTwo : Constrained.Data :=
  { n_days := 2, n_clusters := 1, n_extreme_days := 0
    distance := fun _ _ => 0
    Properties := {1}
    x_daily_tot := fun _ _ => 0
    x_daily_max := fun _ _ => 1
    x_max := fun _ => 1
    rel_tol := fun _ => 0
    min_peak_share := fun _ => 1 }

/-- The solution of `dTwo` in which day 1 is the representative of both days:
`y = (1,0)`, `z[1,1] = z[1,2] = 1`, all `w = 0`. -/
def sTwo : Constrained.Sol :=
  { y := fun i => if i = 1 then 1 else 0
    z := fun i j => if i = 1 ∧ (j = 1 ∨ j = 2) then 1 else 0
    w := fun _ _ => 0 }

/-- The solution `sTwo` with the peak witness of property 1 placed on day 2
(which is represented by day 1). -/
def sTwoW : Constrained.Sol :=
  { y := fun i => if i = 1 then 1 else 0
    z := fun i j => if i = 1 ∧ (j = 1 ∨ j = 2) then 1 else 0
    w := fun p i => if p = 1 ∧ i = 2 then 1 else 0 }

/-- A one-day instance: `n_days = n_clusters = 1`, one property with constant
daily total 5 and zero tolerance. -/
def dOne : Constrained.Data :=
  { n_days := 1, n_clusters := 1, n_extreme_days := 0
    distance := fun _ _ => 0
    Properties := {1}
    x_daily_tot := fun _ _ => 5
    x_daily_max := fun _ _ => 1
    x_max := fun _ => 1
    rel_tol := fun _ => 0
    min_peak_share := fun _ => 1 }

/-- The unique sensible solution of `dOne`: day 1 represents itself. -/
def sOne : Constrained.Sol :=
  { y := fun _ => 1
    z := fun i j => if i = 1 ∧ j = 1 then 1 else 0
    w := fun _ _ => 0 }

/-- A malformed instance with `n_clusters = 2 > 1 = n_days`. -/
def dBad : Constrained.Data :=
  { n_days := 1, n_clusters := 2, n_extreme_days := 0
    distance := fun _ _ => 0
    Properties := ∅
    x_daily_tot := fun _ _ => 0
    x_daily_max := fun _ _ => 0
    x_max := fun _ => 0
    rel_tol := fun _ => 0
    min_peak_share := fun _ => 0 }

/-- The all-zero assignment of the constrained model's variables. -/
def sZero : Constrained.Sol :=
  { y := fun _ => 0, z := fun _ _ => 0, w := fun _ _ => 0 }

/-- The all-ones distance matrix. -/
def oneDist : ℕ → ℕ → ℚ := fun _ _ => 1

/-- The plain-model instance `n_days = 3`, `n_clusters = 3`,
`n_extreme_days = 0` over an arbitrary distance matrix. -/
def dThree (dist : ℕ → ℕ → ℚ) : Milp.Data :=
  { n_days := 3, n_clusters := 3, n_extreme_days := 0, distance := dist }

/-- A feasible solution of `dThree` in which days 1 and 2 represent each
other instead of themselves: `z[1,2] = z[2,1] = z[3,3] = 1`. -/
def sPerm : Milp.Sol :=
  { y := fun _ => 1
    z := fun i j => if (i = 1 ∧ j = 2) ∨ (i = 2 ∧ j = 1) ∨ (i = 3 ∧ j = 3) then 1 else 0 }

/-- The diagonal solution of `dThree`: every day represents itself. -/
def sDiag : Milp.Sol :=
  { y := fun _ => 1
    z := fun i j => if i = j then 1 else 0 }

/-!
General lemmas about binary-valued variables and the activation step.
-/

/-- A binary value is non-negative. -/
theorem binary_nonneg {q : ℚ} (h : Binary q) : 0 ≤ q := by
  rcases h with h | h <;> simp [h]

/-- A binary value is at most one. -/
theorem binary_le_one {q : ℚ} (h : Binary q) : q ≤ 1 := by
  rcases h with h | h <;> simp [h]

/-- If values bounded by 1 sum to the cardinality of the index set, each of
them equals 1. -/
theorem eq_one_of_sum_eq_card {s : Finset ℕ} {f : ℕ → ℚ}
    (h1 : ∀ i ∈ s, f i ≤ 1) (h2 : (∑ i ∈ s, f i) = (s.card : ℚ)) :
    ∀ i ∈ s, f i = 1 := by
  by_contra h
  push_neg at h
  obtain ⟨i, hi, hne⟩ := h
  have hlt : (∑ j ∈ s, f j) < ∑ _j ∈ s, (1 : ℚ) :=
    Finset.sum_lt_sum h1 ⟨i, hi, lt_of_le_of_ne (h1 i hi) hne⟩
  rw [Finset.sum_const, nsmul_eq_mul, mul_one, h2] at hlt
  exact lt_irrefl _ hlt

/-- A sum of binary values counts the indices where the value is 1. -/
theorem sum_binary_eq_filter_card {s : Finset ℕ} {f : ℕ → ℚ}
    (hb : ∀ j ∈ s, Binary (f j)) :
    (∑ j ∈ s, f j) = (((s.filter fun j => f j = 1)).card : ℚ) := by
  rw [← Finset.sum_filter_add_sum_filter_not s (fun j => f j = 1) f]
  have h1 : (∑ j ∈ s.filter (fun j => f j = 1), f j) =
      (((s.filter fun j => f j = 1)).card : ℚ) := by
    rw [Finset.sum_congr rfl (fun j hj => (Finset.mem_filter.mp hj).2)]
    rw [Finset.sum_const, nsmul_eq_mul, mul_one]
  have h2 : (∑ j ∈ s.filter (fun j => ¬ f j = 1), f j) = 0 := by
    refine Finset.sum_eq_zero fun j hj => ?_
    have hj' := Finset.mem_filter.mp hj
    exact (hb j hj'.1).resolve_right hj'.2
  rw [h1, h2, add_zero]

/-- For binary values with sum at most 1, one minus the sum is the indicator
that all values vanish. -/
theorem one_sub_binary_sum_eq_ite {s : Finset ℕ} {f : ℕ → ℚ}
    (hb : ∀ k ∈ s, Binary (f k)) (hle : (∑ k ∈ s, f k) ≤ 1) :
    1 - (∑ k ∈ s, f k) = (if ∀ k ∈ s, f k = 0 then (1 : ℚ) else 0) := by
  by_cases hall : ∀ k ∈ s, f k = 0
  · rw [if_pos hall, Finset.sum_eq_zero hall, sub_zero]
  · rw [if_neg hall]
    push_neg at hall
    obtain ⟨k, hk, hne⟩ := hall
    have h1 : f k = 1 := (hb k hk).resolve_left hne
    have hge : (1 : ℚ) ≤ ∑ k ∈ s, f k := by
      rw [← h1]
      exact Finset.single_le_sum (fun j hj => binary_nonneg (hb j hj)) hk
    linarith

/-- A sum over `Days_cross` is the sum over columns of the column sums. -/
theorem sum_cross_eq_sum_cols (n : ℕ) (f : ℕ → ℕ → ℚ) :
    (∑ ij ∈ Days_cross n, f ij.1 ij.2) = ∑ j ∈ Days n, ∑ i ∈ Days n, f i j := by
  rw [Days_cross, Finset.sum_product]
  exact Finset.sum_comm

/-- The activation state produced by running the build action on the freshly
constructed model, for an arbitrary flag configuration. -/
theorem apply_options_built (o : Constrained.Options) :
    Constrained.apply_options o Constrained.built =
      { total_representative_days_active := true
        each_non_extreme_day_is_represented_active := true
        total_represented_days_active := true
        represented_by_representative_active := true
        relative_error_upper_active := o.preserve_total_values
        relative_error_lower_active := o.preserve_total_values
        preserve_peak_active := o.preserve_peak_values
        at_least_one_preserved_active := o.preserve_peak_values
        minimize_total_distance_active := true
        y_is_fixed := false
        y_fix_value := 0
        z_is_fixed := false
        z_fix_value := 0
        w_is_fixed := !o.preserve_peak_values
        w_fix_value := 0 } := by
  obtain ⟨t, p⟩ := o
  cases t <;> cases p <;> rfl

/-!
Claims.
-/

/-- C1: the claim states that the derived expression `chosen(i)` equals
`y[i] + (1 − Σ_k z[k,i])` and is 1 exactly on representative or uncovered
extreme days and 0 otherwise.  The source instead computes
`y[i] + (1 − Σ_j z[i,j])`, summing over the days `i` represents.  On the
feasible binary solution `sTwo` of `dTwo` (day 1 represents both days), the
code's `chosen` evaluates to 0 on the representative day 1 (the claim and
the function's own docstring require 1, as the claimed formula yields) and
to 1 on day 2, which is covered by representative 1 and is no
representative (the claim requires 0, as the claimed formula yields). -/
theorem c1_chosen_row_sum_bug :
    Constrained.BinarySol dTwo sTwo ∧
    Constrained.activeFeasible dTwo
      (Constrained.apply_options ⟨false, false⟩ Constrained.built) sTwo ∧
    Constrained.chosen dTwo sTwo 1 = 0 ∧
    sTwo.y 1 + (1 - ∑ k ∈ Days dTwo.n_days, sTwo.z k 1) = 1 ∧
    Constrained.chosen dTwo sTwo 2 = 1 ∧
    sTwo.y 2 + (1 - ∑ k ∈ Days dTwo.n_days, sTwo.z k 2) = 0 ∧
    sTwo.y 2 = 0 ∧ (∑ k ∈ Days dTwo.n_days, sTwo.z k 2) = 1 := by
  refine ⟨?_, ?_, ?_, ?_, ?_, ?_, ?_, ?_⟩
  · norm_num [-Finset.sum_boole, Constrained.BinarySol, Binary, dTwo, sTwo,
      Days, Days_cross, (show Finset.Icc 1 2 = ({1, 2} : Finset ℕ) from rfl)]
    tauto
  · norm_num [-Finset.sum_boole, Constrained.activeFeasible,
      Constrained.apply_options, Constrained.built,
      Constrained.total_representative_days,
      Constrained.each_non_extreme_day_is_represented,
      Constrained.total_represented_days,
      Constrained.represented_by_representative,
      dTwo, sTwo, Days, Days_cross, Finset.sum_product,
      (show Finset.Icc 1 2 = ({1, 2} : Finset ℕ) from rfl)]
  · norm_num [-Finset.sum_boole, Constrained.chosen, dTwo, sTwo, Days,
      (show Finset.Icc 1 2 = ({1, 2} : Finset ℕ) from rfl)]
  · norm_num [-Finset.sum_boole, dTwo, sTwo, Days,
      (show Finset.Icc 1 2 = ({1, 2} : Finset ℕ) from rfl)]
  · norm_num [-Finset.sum_boole, Constrained.chosen, dTwo, sTwo, Days,
      (show Finset.Icc 1 2 = ({1, 2} : Finset ℕ) from rfl)]
  · norm_num [-Finset.sum_boole, dTwo, sTwo, Days,
      (show Finset.Icc 1 2 = ({1, 2} : Finset ℕ) from rfl)]
  · norm_num [sTwo]
  · norm_num [-Finset.sum_boole, dTwo, sTwo, Days,
      (show Finset.Icc 1 2 = ({1, 2} : Finset ℕ) from rfl)]

/-- C2: the claim states that, with peak preservation enabled, the peak
constraint and the at-least-one-witness constraint are active, and that in
every feasible solution each property has a witness day `w[p,i] = 1` which
must be a chosen day clearing the peak threshold.  The constraints are
indeed active as stated, but because the code's `chosen` uses the wrong sum
(see C1), a feasible solution of `dTwo` places the only witness of property
1 on day 2, which is neither a representative (`y[2] = 0`) nor an extreme
day (it is covered by representative 1), even though the required peak
share `minPeakShare[1] × globalMax[1] = 1` is positive. -/
theorem c2_peak_witness_on_covered_day :
    (Constrained.apply_options ⟨false, true⟩ Constrained.built).preserve_peak_active = true ∧
    (Constrained.apply_options ⟨false, true⟩ Constrained.built).at_least_one_preserved_active = true ∧
    Constrained.BinarySol dTwo sTwoW ∧
    Constrained.activeFeasible dTwo
      (Constrained.apply_options ⟨false, true⟩ Constrained.built) sTwoW ∧
    sTwoW.w 1 2 = 1 ∧ sTwoW.y 2 = 0 ∧
    (∑ k ∈ Days dTwo.n_days, sTwoW.z k 2) = 1 ∧
    dTwo.min_peak_share 1 * dTwo.x_max 1 = 1 := by
  refine ⟨rfl, rfl, ?_, ?_, ?_, ?_, ?_, ?_⟩
  · norm_num [-Finset.sum_boole, Constrained.BinarySol, Binary, dTwo, sTwoW,
      Days, Days_cross, (show Finset.Icc 1 2 = ({1, 2} : Finset ℕ) from rfl)]
    tauto
  · norm_num [-Finset.sum_boole, Constrained.activeFeasible,
      Constrained.apply_options, Constrained.built,
      Constrained.total_representative_days,
      Constrained.each_non_extreme_day_is_represented,
      Constrained.total_represented_days,
      Constrained.represented_by_representative,
      Constrained.preserve_peak, Constrained.at_least_one_preserved,
      Constrained.chosen,
      dTwo, sTwoW, Days, Days_cross, Finset.sum_product,
      (show Finset.Icc 1 2 = ({1, 2} : Finset ℕ) from rfl)]
  · norm_num [sTwoW]
  · norm_num [sTwoW]
  · norm_num [-Finset.sum_boole, dTwo, sTwoW, Days,
      (show Finset.Icc 1 2 = ({1, 2} : Finset ℕ) from rfl)]
  · norm_num [dTwo]

/-- C6: the activation step modifies only the preservation machinery.  For
every flag configuration, running the build action on the freshly built
model leaves the four base constraints and the objective active, leaves
`y` and `z` unfixed, sets the two total-value constraints active exactly
when `preserve_total_values` holds, sets the peak constraint and the
at-least-one-witness constraint active exactly when `preserve_peak_values`
holds, and fixes `w` (to 0) exactly when `preserve_peak_values` fails. -/
theorem c6_apply_options_frame (o : Constrained.Options) :
    Constrained.apply_options o Constrained.built =
      { total_representative_days_active := true
        each_non_extreme_day_is_represented_active := true
        total_represented_days_active := true
        represented_by_representative_active := true
        relative_error_upper_active := o.preserve_total_values
        relative_error_lower_active := o.preserve_total_values
        preserve_peak_active := o.preserve_peak_values
        at_least_one_preserved_active := o.preserve_peak_values
        minimize_total_distance_active := true
        y_is_fixed := false
        y_fix_value := 0
        z_is_fixed := false
        z_fix_value := 0
        w_is_fixed := !o.preserve_peak_values
        w_fix_value := 0 } :=
  apply_options_built o

/-- C7: the activation step is idempotent: for every flag configuration and
every activation state, applying `_apply_options` twice yields the same
active/inactive constraint set and the same fixed variables (with the same
fixed values) as applying it once. -/
theorem c7_apply_options_idempotent (o : Constrained.Options)
    (st : Constrained.State) :
    Constrained.apply_options o (Constrained.apply_options o st) =
      Constrained.apply_options o st := by
  obtain ⟨t, p⟩ := o
  cases st
  cases t <;> cases p <;> rfl

/-- C5: with both preservation flags false, the constrained model after its
activation step is exactly the plain k-medoids MILP: the four base
constraints and the objective are the only active components (no
property-indexed constraint is active), `y` and `z` are free binary
variables exactly as in the plain model while `w` is fixed to 0, a solution
is feasible for the active constraints precisely when its `(y, z)` part is
feasible for the plain model (and `w` carries its fixed value 0), and the
objective coincides with the plain model's objective. -/
theorem c5_plain_model_equivalence :
    (Constrained.apply_options ⟨false, false⟩ Constrained.built =
      { total_representative_days_active := true
        each_non_extreme_day_is_represented_active := true
        total_represented_days_active := true
        represented_by_representative_active := true
        relative_error_upper_active := false
        relative_error_lower_active := false
        preserve_peak_active := false
        at_least_one_preserved_active := false
        minimize_total_distance_active := true
        y_is_fixed := false
        y_fix_value := 0
        z_is_fixed := false
        z_fix_value := 0
        w_is_fixed := true
        w_fix_value := 0 }) ∧
    (∀ (d : Constrained.Data) (s : Constrained.Sol),
      Constrained.activeFeasible d
          (Constrained.apply_options ⟨false, false⟩ Constrained.built) s ↔
        (Milp.feasible (Constrained.toMilp d) (Constrained.toMilpSol s) ∧
          ∀ p ∈ d.Properties, ∀ i ∈ Days d.n_days, s.w p i = 0)) ∧
    (∀ (d : Constrained.Data) (s : Constrained.Sol),
      Constrained.minimize_total_distance d s =
        Milp.minimize_total_distance (Constrained.toMilp d) (Constrained.toMilpSol s)) ∧
    (∀ (d : Constrained.Data) (s : Constrained.Sol),
      Constrained.BinarySol d s ↔
        (Milp.BinarySol (Constrained.toMilp d) (Constrained.toMilpSol s) ∧
          ∀ p ∈ d.Properties, ∀ i ∈ Days d.n_days, Binary (s.w p i))) := by
  refine ⟨rfl, fun d s => ?_, fun d s => rfl, fun d s => ?_⟩
  · constructor
    · rintro ⟨h1, h2, h3, h4, _, _, _, _, _, _, h11⟩
      exact ⟨⟨h1 rfl, h2 rfl, h3 rfl, h4 rfl⟩, h11 rfl⟩
    · rintro ⟨⟨h1, h2, h3, h4⟩, hw⟩
      refine ⟨fun _ => h1, fun _ => h2, fun _ => h3, fun _ => h4,
        ?_, ?_, ?_, ?_, ?_, ?_, fun _ => hw⟩
      all_goals exact fun h => absurd h (by decide)
  · exact ⟨fun ⟨a, b, c⟩ => ⟨⟨a, b⟩, c⟩, fun ⟨⟨a, b⟩, c⟩ => ⟨a, b, c⟩⟩

/-- C5 witness: the equivalence evaluated on the concrete instance `dTwo`
with solution `sTwo`: feasibility for the activated constrained model
transfers to the plain model. -/
theorem c5_plain_model_equivalence_witness :
    Milp.feasible (Constrained.toMilp dTwo) (Constrained.toMilpSol sTwo) :=
  ((c5_plain_model_equivalence.2.1 dTwo sTwo).mp
    (by norm_num [-Finset.sum_boole, Constrained.activeFeasible,
      Constrained.apply_options, Constrained.built,
      Constrained.total_representative_days,
      Constrained.each_non_extreme_day_is_represented,
      Constrained.total_represented_days,
      Constrained.represented_by_representative,
      dTwo, sTwo, Days, Days_cross, Finset.sum_product,
      (show Finset.Icc 1 2 = ({1, 2} : Finset ℕ) from rfl)])).1

/-- C4: every solution that is feasible for the plain model, or for the
constrained model under any flag configuration, satisfies the four base
constraint families — cardinality of representatives, at most one
representative per day, total coverage `n_days − n_extreme_days`, and the
gating `z[i,j] ≤ y[i]` (hence, for binary solutions, `z[i,j] = 1` implies
`y[i] = 1`) — and for the plain model feasibility is exactly the
conjunction of these four families. -/
theorem c4_base_constraints (d : Constrained.Data) (o : Constrained.Options)
    (s : Constrained.Sol) (hb : Constrained.BinarySol d s) :
    (Milp.feasible (Constrained.toMilp d) (Constrained.toMilpSol s) ↔
      ((∑ i ∈ Days d.n_days, s.y i) = (d.n_clusters : ℚ) ∧
        (∀ j ∈ Days d.n_days, (∑ i ∈ Days d.n_days, s.z i j) ≤ 1) ∧
        ((∑ ij ∈ Days_cross d.n_days, s.z ij.1 ij.2) =
          (d.n_days : ℚ) - (d.n_extreme_days : ℚ)) ∧
        (∀ i ∈ Days d.n_days, ∀ j ∈ Days d.n_days, s.z i j ≤ s.y i))) ∧
    (Constrained.activeFeasible d (Constrained.apply_options o Constrained.built) s →
      Milp.feasible (Constrained.toMilp d) (Constrained.toMilpSol s)) ∧
    (Milp.feasible (Constrained.toMilp d) (Constrained.toMilpSol s) →
      ∀ i ∈ Days d.n_days, ∀ j ∈ Days d.n_days, s.z i j = 1 → s.y i = 1) := by
  refine ⟨Iff.rfl, ?_, ?_⟩
  · intro hf
    rw [apply_options_built o] at hf
    exact ⟨hf.1 rfl, hf.2.1 rfl, hf.2.2.1 rfl, hf.2.2.2.1 rfl⟩
  · intro hf i hi j hj hz
    have hle : s.z i j ≤ s.y i := hf.2.2.2 i hi j hj
    rcases hb.1 i hi with h0 | h1
    · rw [h0, hz] at hle
      exact absurd hle (by norm_num)
    · exact h1

/-- C4 witness: on the one-day instance `dOne` with solution `sOne`, the
implication `z[1,1] = 1 → y[1] = 1` derived from the base constraints,
evaluated concretely. -/
theorem c4_base_constraints_witness : sOne.y 1 = 1 :=
  (c4_base_constraints dOne ⟨false, false⟩ sOne
      (by norm_num [-Finset.sum_boole, Constrained.BinarySol, Binary, dOne, sOne,
        Days, Days_cross, (show Finset.Icc 1 1 = ({1} : Finset ℕ) from rfl)])).2.2
    (by norm_num [-Finset.sum_boole, Milp.feasible, Milp.total_representative_days,
      Milp.each_non_extreme_day_is_represented, Milp.total_represented_days,
      Milp.represented_by_representative, Constrained.toMilp, Constrained.toMilpSol,
      dOne, sOne, Days, Days_cross, Finset.sum_product,
      (show Finset.Icc 1 1 = ({1} : Finset ℕ) from rfl)])
    1 (by decide) 1 (by decide) (by norm_num [sOne])

/-- C3: with total-value preservation enabled, every feasible solution
satisfies the two separate one-sided constraints bounding the estimated
total `Σ_i weight(i) × dailyTotal[p,i]` within
`[(1 − rel_tol[p])·trueTotal[p], (1 + rel_tol[p])·trueTotal[p]]` for every
property; `trueTotal[p]` is `Σ_i dailyTotal[p,i]`, a function of the input
data alone; and for binary solutions the weight of day `i` is the number of
days assigned to `i` plus 1 exactly when `i` is not assigned to any
representative. -/
theorem c3_total_value_preservation (d : Constrained.Data)
    (o : Constrained.Options) (s : Constrained.Sol)
    (ho : o.preserve_total_values = true)
    (hb : Constrained.BinarySol d s)
    (hf : Constrained.activeFeasible d
      (Constrained.apply_options o Constrained.built) s) :
    (∀ p ∈ d.Properties, Constrained.relative_error_upper d s p ∧
      Constrained.relative_error_lower d s p) ∧
    (∀ p ∈ d.Properties,
      (1 - d.rel_tol p) * Constrained.x_total d p ≤
        Constrained.x_total_estimated d s p ∧
      Constrained.x_total_estimated d s p ≤
        (1 + d.rel_tol p) * Constrained.x_total d p) ∧
    (∀ p, Constrained.x_total d p = ∑ i ∈ Days d.n_days, d.x_daily_tot p i) ∧
    (∀ i ∈ Days d.n_days, Constrained.x_weight d s i =
      (((Days d.n_days).filter fun j => s.z i j = 1).card : ℚ) +
      (if ∀ k ∈ Days d.n_days, s.z k i = 0 then (1 : ℚ) else 0)) := by
  rw [apply_options_built o] at hf
  have hup : ∀ p ∈ d.Properties, Constrained.relative_error_upper d s p :=
    hf.2.2.2.2.1 ho
  have hlo : ∀ p ∈ d.Properties, Constrained.relative_error_lower d s p :=
    hf.2.2.2.2.2.1 ho
  refine ⟨fun p hp => ⟨hup p hp, hlo p hp⟩,
    fun p hp => ⟨hlo p hp, hup p hp⟩, fun p => rfl, fun i hi => ?_⟩
  have hrow : ∀ j ∈ Days d.n_days, Binary (s.z i j) := fun j hj =>
    hb.2.1 (i, j) (Finset.mem_product.mpr ⟨hi, hj⟩)
  have hcol : ∀ k ∈ Days d.n_days, Binary (s.z k i) := fun k hk =>
    hb.2.1 (k, i) (Finset.mem_product.mpr ⟨hk, hi⟩)
  have hle : (∑ k ∈ Days d.n_days, s.z k i) ≤ 1 := hf.2.1 rfl i hi
  rw [Constrained.x_weight, sum_binary_eq_filter_card hrow,
    one_sub_binary_sum_eq_ite hcol hle]

/-- C3 witness: the bounds evaluated on the one-day instance `dOne` (daily
total 5, zero tolerance) with solution `sOne` and flags
`preserve_total_values = true`, `preserve_peak_values = false`, at
property 1. -/
theorem c3_total_value_preservation_witness :
    (1 - dOne.rel_tol 1) * Constrained.x_total dOne 1 ≤
      Constrained.x_total_estimated dOne sOne 1 ∧
    Constrained.x_total_estimated dOne sOne 1 ≤
      (1 + dOne.rel_tol 1) * Constrained.x_total dOne 1 :=
  (c3_total_value_preservation dOne ⟨true, false⟩ sOne rfl
      (by norm_num [-Finset.sum_boole, Constrained.BinarySol, Binary, dOne, sOne,
        Days, Days_cross, (show Finset.Icc 1 1 = ({1} : Finset ℕ) from rfl)])
      (by norm_num [-Finset.sum_boole, Constrained.activeFeasible,
        Constrained.apply_options, Constrained.built,
        Constrained.total_representative_days,
        Constrained.each_non_extreme_day_is_represented,
        Constrained.total_represented_days,
        Constrained.represented_by_representative,
        Constrained.relative_error_upper, Constrained.relative_error_lower,
        Constrained.x_total_estimated, Constrained.x_total,
        Constrained.x_weight,
        dOne, sOne, Days, Days_cross, Finset.sum_product,
        (show Finset.Icc 1 1 = ({1} : Finset ℕ) from rfl)])).2.1
    1 (by decide)

/-- C10: for every assignment of values to the `z` variables — with no
feasibility assumption — the day weights defined by `_x_weight` sum to
`n_days`; consequently, when a property's daily total is a constant `c`
across all days, its estimated total equals its true total. -/
theorem c10_weight_conservation (d : Constrained.Data) (s : Constrained.Sol) :
    ((∑ i ∈ Days d.n_days, Constrained.x_weight d s i) = (d.n_days : ℚ)) ∧
    (∀ p c, (∀ i ∈ Days d.n_days, d.x_daily_tot p i = c) →
      Constrained.x_total_estimated d s p = Constrained.x_total d p) := by
  have hcard : ((Days d.n_days).card : ℚ) = (d.n_days : ℚ) := by
    simp [Days]
  have hw : (∑ i ∈ Days d.n_days, Constrained.x_weight d s i) = (d.n_days : ℚ) := by
    simp only [Constrained.x_weight]
    rw [Finset.sum_add_distrib, Finset.sum_sub_distrib, Finset.sum_const,
      nsmul_eq_mul, mul_one, hcard, Finset.sum_comm]
    ring
  refine ⟨hw, fun p c hc => ?_⟩
  have h1 : Constrained.x_total_estimated d s p =
      (∑ i ∈ Days d.n_days, Constrained.x_weight d s i) * c := by
    rw [Constrained.x_total_estimated, Finset.sum_mul]
    exact Finset.sum_congr rfl fun i hi => by rw [hc i hi]
  have h2 : Constrained.x_total d p = (d.n_days : ℚ) * c := by
    rw [Constrained.x_total, Finset.sum_congr rfl fun i hi => hc i hi,
      Finset.sum_const, nsmul_eq_mul, hcard]
  rw [h1, h2, hw]

/-- C10 witness: on the one-day instance `dOne`, whose property 1 has
constant daily total 5, the estimated total of property 1 under `sOne`
equals the true total. -/
theorem c10_weight_conservation_witness :
    Constrained.x_total_estimated dOne sOne 1 = Constrained.x_total dOne 1 :=
  (c10_weight_conservation dOne sOne).2 1 5 (by norm_num [dOne])

/-- C8 counterexample: the claim states that every input with
`n_clusters > n_days` makes construction fail with a ConfigurationError
rather than produce a model.  The source performs no such check: its only
construction-time validation of the counts is the Pyomo parameter domain
declarations (`PositiveIntegers` for `n_days` and `n_clusters`,
`NonNegativeIntegers` for `n_extreme_days`), and the instance `dBad` with
`n_days = 1 < 2 = n_clusters` passes them, so the model is built. -/
theorem c8_counterexample_construction_succeeds :
    Constrained.paramDomainsOk dBad ∧ dBad.n_days < dBad.n_clusters := by
  constructor <;> norm_num [Constrained.paramDomainsOk, dBad]

/-- C8 amended: an input with `n_clusters > n_days` is not rejected at
construction — it passes all parameter-domain validation the source
performs — and instead the constructed model is infeasible under every
flag configuration: no binary solution satisfies the always-active
cardinality constraint. -/
theorem c8_no_eager_check_but_infeasible (o : Constrained.Options)
    (s : Constrained.Sol) (hb : Constrained.BinarySol dBad s) :
    Constrained.paramDomainsOk dBad ∧
    ¬ Constrained.activeFeasible dBad
        (Constrained.apply_options o Constrained.built) s := by
  refine ⟨by norm_num [Constrained.paramDomainsOk, dBad], fun hf => ?_⟩
  rw [apply_options_built o] at hf
  have hcard : (∑ i ∈ ({1} : Finset ℕ), s.y i) = ((2 : ℕ) : ℚ) := hf.1 rfl
  have hb1 : Binary (s.y 1) := hb.1 1 (by decide)
  rw [Finset.sum_singleton] at hcard
  rcases hb1 with h | h <;> rw [h] at hcard <;> norm_num [dBad] at hcard

/-- C8 witness: the amended statement evaluated at the all-zero solution
with both flags false. -/
theorem c8_no_eager_check_but_infeasible_witness :
    Constrained.paramDomainsOk dBad ∧
    ¬ Constrained.activeFeasible dBad
        (Constrained.apply_options ⟨false, false⟩ Constrained.built) sZero :=
  c8_no_eager_check_but_infeasible ⟨false, false⟩ sZero
    (by norm_num [Constrained.BinarySol, Binary, sZero, dBad])

/-- C9 counterexample: the claim states that with `n_days = 3`,
`n_clusters = 3`, `n_extreme_days = 0` every solution of the plain model
has `z[i,i] = 1` for all `i`, `z[i,j] = 0` for `i ≠ j`, and objective 0
regardless of the distance matrix.  The binary solution `sPerm`, in which
days 1 and 2 represent each other, is feasible, has `z[1,1] = 0` and
`z[1,2] = 1`, and under the all-ones distance matrix, has objective 3. -/
theorem c9_counterexample_permutation_solution :
    Milp.BinarySol (dThree oneDist) sPerm ∧
    Milp.feasible (dThree oneDist) sPerm ∧
    sPerm.z 1 1 = 0 ∧ sPerm.z 1 2 = 1 ∧
    Milp.minimize_total_distance (dThree oneDist) sPerm = 3 := by
  refine ⟨?_, ?_, ?_, ?_, ?_⟩
  · norm_num [-Finset.sum_boole, Milp.BinarySol, Binary, dThree, oneDist, sPerm,
      Days, Days_cross, (show Finset.Icc 1 3 = ({1, 2, 3} : Finset ℕ) from rfl)]
    tauto
  · norm_num [-Finset.sum_boole, Milp.feasible, Milp.total_representative_days,
      Milp.each_non_extreme_day_is_represented, Milp.total_represented_days,
      Milp.represented_by_representative, dThree, oneDist, sPerm,
      Days, Days_cross, Finset.sum_product,
      (show Finset.Icc 1 3 = ({1, 2, 3} : Finset ℕ) from rfl)]
  · norm_num [sPerm]
  · norm_num [sPerm]
  · norm_num [-Finset.sum_boole, Milp.minimize_total_distance, dThree, oneDist,
      sPerm, Days, Days_cross, Finset.sum_product,
      (show Finset.Icc 1 3 = ({1, 2, 3} : Finset ℕ) from rfl)]

/-- C9 amended: with `n_days = 3`, `n_clusters = 3`, `n_extreme_days = 0`,
every feasible binary solution has `y[i] = 1` for every day and assigns
every day to exactly one representative; the diagonal solution (every day
represents itself) is feasible, and its objective equals the sum of the
diagonal distances — which is 0 when the distance matrix has a zero
diagonal, but the model does not force `z` to be diagonal nor the objective
to vanish for arbitrary distance matrices. -/
theorem c9_forced_representatives (dist : ℕ → ℕ → ℚ) (s : Milp.Sol)
    (hb : Milp.BinarySol (dThree dist) s)
    (hf : Milp.feasible (dThree dist) s) :
    (∀ i ∈ Days 3, s.y i = 1) ∧
    (∀ j ∈ Days 3, (∑ i ∈ Days 3, s.z i j) = 1) ∧
    Milp.feasible (dThree dist) sDiag ∧
    Milp.minimize_total_distance (dThree dist) sDiag =
      dist 1 1 + dist 2 2 + dist 3 3 := by
  have h1 : (∑ i ∈ Days 3, s.y i) = ((3 : ℕ) : ℚ) := hf.1
  have hy : ∀ i ∈ Days 3, s.y i = 1 := by
    refine eq_one_of_sum_eq_card (fun i hi => binary_le_one (hb.1 i hi)) ?_
    rw [h1]
    simp [Days]
  have h3 : (∑ ij ∈ Days_cross 3, s.z ij.1 ij.2) =
      ((3 : ℕ) : ℚ) - ((0 : ℕ) : ℚ) := hf.2.2.1
  have hz : ∀ j ∈ Days 3, (∑ i ∈ Days 3, s.z i j) = 1 := by
    refine eq_one_of_sum_eq_card (fun j hj => hf.2.1 j hj) ?_
    rw [← sum_cross_eq_sum_cols 3 (fun i j => s.z i j), h3]
    simp [Days]
  have hdiag : Milp.feasible (dThree dist) sDiag := by
    norm_num [-Finset.sum_boole, Milp.feasible, Milp.total_representative_days,
      Milp.each_non_extreme_day_is_represented, Milp.total_represented_days,
      Milp.represented_by_representative, dThree, sDiag,
      Days, Days_cross, Finset.sum_product,
      (show Finset.Icc 1 3 = ({1, 2, 3} : Finset ℕ) from rfl)]
  have hobj : Milp.minimize_total_distance (dThree dist) sDiag =
      dist 1 1 + dist 2 2 + dist 3 3 := by
    show (∑ ij ∈ Days_cross 3, dist ij.1 ij.2 * sDiag.z ij.1 ij.2) = _
    rw [Days_cross, Finset.sum_product,
      (show Days 3 = ({1, 2, 3} : Finset ℕ) from rfl)]
    norm_num [sDiag]
    ring
  exact ⟨hy, hz, hdiag, hobj⟩

/-- C9 witness: the amended statement evaluated at the diagonal solution
under the all-ones distance matrix: day 1 is forced to be a
representative. -/
theorem c9_forced_representatives_witness : sDiag.y 1 = 1 :=
  (c9_forced_representatives oneDist sDiag
      (by
        norm_num [-Finset.sum_boole, Milp.BinarySol, Binary, dThree, oneDist,
          sDiag, Days, Days_cross,
          (show Finset.Icc 1 3 = ({1, 2, 3} : Finset ℕ) from rfl)]
        tauto)
      (by norm_num [-Finset.sum_boole, Milp.feasible, Milp.total_representative_days,
        Milp.each_non_extreme_day_is_represented, Milp.total_represented_days,
        Milp.represented_by_representative, dThree, oneDist, sDiag,
        Days, Days_cross, Finset.sum_product,
        (show Finset.Icc 1 3 = ({1, 2, 3} : Finset ℕ) from rfl)])).1
    1 (by decide)

end TypicalDays
